import Mathlib

/-!
Shallow embedding of the MediTransport backend (Express/PostgreSQL) ride
lifecycle, authorization filtering, registration, payment and tracking
logic, together with theorems settling the specification claims.

Modelling conventions:
* Each SQL statement issued through the `query` helper is one atomic action
  on an explicit database state `DB` (lists standing for tables, list order
  standing for row order / `created_at DESC` order where relevant).
* Opaque identifiers (user UUIDs, SERIAL keys) are modelled as `Nat`;
  Stripe payment-intent identifiers as `String`.
* Columns that no modelled operation ever reads or branches on
  (locations, coordinates, fare/distance/duration measurements, timestamps,
  names, password hashes, phone numbers) are omitted from the row types;
  the fare *computation* performed at ride creation is modelled separately
  over `ℝ` (`calculateDistance`, `estimatedFare`).
* `AppError(message, status)` throws are modelled as `Except AppErr` results
  paired with the database state at the moment of the throw.
-/

namespace MediTransport

/-- Role of an authenticated identity (`users.role`). -/
inductive Role
  | patient
  | driver
  | admin
deriving DecidableEq

/-- Ride lifecycle status (`rides.status` CHECK constraint). -/
inductive RideStatus
  | pending
  | accepted
  | inProgress
  | completed
  | canceled
deriving DecidableEq

/-- Payment status (`payments.status` CHECK constraint). -/
inductive PayStatus
  | pending
  | completed
  | failed
  | refunded
deriving DecidableEq

/-- An application error thrown as `AppError(message, statusCode)`. -/
structure AppErr where
  message : String
  status : Nat
deriving DecidableEq

/-- The authenticated request context (`req.user`), as set by the JWT
middleware: the identity id and its role claim. -/
structure UserCtx where
  id : Nat
  role : Role
deriving DecidableEq

/-- A row of the `users` table (columns read by the modelled routes). -/
structure UserRec where
  id : Nat
  email : String
  role : Role
deriving DecidableEq

/-- A row of the `drivers` table (columns read by the modelled routes). -/
structure DriverRec where
  id : Nat
  user_id : Nat
  availability : Bool
  license_number : String
deriving DecidableEq

/-- A row of the `vehicles` table (columns read by the modelled routes). -/
structure VehicleRec where
  id : Nat
  driver_id : Option Nat
deriving DecidableEq

/-- A row of the `rides` table (columns read or written by the modelled
lifecycle operations). -/
structure Ride where
  id : Nat
  user_id : Nat
  driver_id : Option Nat
  vehicle_id : Option Nat
  status : RideStatus
deriving DecidableEq

/-- A row of the `payments` table (columns read or written by the modelled
payment routes). -/
structure Payment where
  id : Nat
  ride_id : Nat
  user_id : Nat
  status : PayStatus
  stripe_payment_intent_id : String
deriving DecidableEq

/-- A row of the `ride_tracking` table. `timestamp` is an abstract
monotone clock value (larger = more recent). -/
structure TrackSample where
  id : Nat
  ride_id : Nat
  latitude : ℚ
  longitude : ℚ
  timestamp : Nat
deriving DecidableEq

/-- The relational store, one list per table. List order models row order;
for `rides` and `ride_tracking` no ordering assumption is needed by any
claim except where an explicit `ORDER BY` is modelled by sorting. -/
structure DB where
  users : List UserRec
  drivers : List DriverRec
  vehicles : List VehicleRec
  rides : List Ride
  payments : List Payment
  ride_tracking : List TrackSample
deriving DecidableEq

/-- The empty database. -/
def DB.empty : DB := ⟨[], [], [], [], [], []⟩

/-- `SELECT id FROM drivers WHERE user_id = $1` — the driver profile lookup
performed by the rides routes for a caller with role `driver`. -/
def driverProfile (db : DB) (userId : Nat) : Option DriverRec :=
  db.drivers.find? (fun d => decide (d.user_id = userId))

/-- GET `/rides` (rides.js router.get('/')): role-dependent `WHERE` clause.
For a `patient`, `AND r.user_id = $n` is appended; for a `driver`, the
profile is looked up and `AND r.driver_id = $n` is appended **only when a
profile row exists** — when the lookup is empty no clause is appended at
all, so the query runs unscoped; an `admin` sees all rides. An optional
status filter, then `LIMIT`/`OFFSET` (defaults 20/0), are applied. -/
def listRides (u : UserCtx) (db : DB) (status : Option RideStatus)
    (limit offset : Nat) : List Ride :=
  let roleFiltered : List Ride :=
    match u.role with
    | Role.patient => db.rides.filter (fun r => decide (r.user_id = u.id))
    | Role.driver =>
      match driverProfile db u.id with
      | some d => db.rides.filter (fun r => decide (r.driver_id = some d.id))
      | none => db.rides
    | Role.admin => db.rides
  let statusFiltered : List Ride :=
    match status with
    | some s => roleFiltered.filter (fun r => decide (r.status = s))
    | none => roleFiltered
  (statusFiltered.drop offset).take limit

/-- GET `/rides/:id` (rides.js router.get('/:id')): `WHERE r.id = $1` plus
the same role-dependent clause as the listing (again: a driver without a
profile row gets **no** scoping clause). Empty result set throws
`AppError('Ride not found', 404)`. -/
def getRide (u : UserCtx) (db : DB) (rideId : Nat) : Except AppErr Ride :=
  let rows :=
    match u.role with
    | Role.patient =>
      db.rides.filter (fun r => decide (r.id = rideId ∧ r.user_id = u.id))
    | Role.driver =>
      match driverProfile db u.id with
      | some d =>
        db.rides.filter (fun r => decide (r.id = rideId ∧ r.driver_id = some d.id))
      | none => db.rides.filter (fun r => decide (r.id = rideId))
    | Role.admin => db.rides.filter (fun r => decide (r.id = rideId))
  match rows with
  | [] => Except.error ⟨"Ride not found", 404⟩
  | r :: _ => Except.ok r

/-- POST `/rides` insert (rides.js router.post('/')): the `INSERT INTO rides`
statement names neither `driver_id`, `vehicle_id` nor `status`, so the new
row gets `driver_id = NULL`, `vehicle_id = NULL` and the schema default
`status = 'pending'`. `newId` models the SERIAL key. The fare column is
computed by `estimatedFare` below and is not carried in the row model. -/
def createRide (db : DB) (userId newId : Nat) : DB :=
  { db with rides := db.rides ++ [⟨newId, userId, none, none, RideStatus.pending⟩] }

/-- First query of POST `/rides/:id/assign`:
`SELECT * FROM rides WHERE id = $1 AND status = 'pending'`, used only for
its row count. -/
def rideIsPendingCheck (db : DB) (rideId : Nat) : Bool :=
  db.rides.any (fun r => decide (r.id = rideId ∧ r.status = RideStatus.pending))

/-- Second query of POST `/rides/:id/assign`:
`SELECT d.*, v.id as vehicle_id FROM drivers d LEFT JOIN vehicles v ON
d.id = v.driver_id WHERE d.id = $1 AND d.availability = true`; the handler
uses the first returned row, i.e. the driver together with the id of its
first vehicle row (NULL when the driver has no vehicle). -/
def availableDriverRow (db : DB) (driverId : Nat) :
    Option (DriverRec × Option Nat) :=
  (db.drivers.find? (fun d => decide (d.id = driverId ∧ d.availability = true))).map
    (fun d => (d, (db.vehicles.find? (fun v => decide (v.driver_id = some d.id))).map VehicleRec.id))

/-- Third query of POST `/rides/:id/assign`:
`UPDATE rides SET driver_id = $1, vehicle_id = $2, status = 'accepted'
WHERE id = $3`. Note the `WHERE` clause matches on the id **only** — it does
not re-check `status = 'pending'`. -/
def assignWrite (db : DB) (rideId driverId : Nat) (vehicleId : Option Nat) : DB :=
  { db with rides := db.rides.map (fun r =>
      if r.id = rideId then
        { r with driver_id := some driverId, vehicle_id := vehicleId,
                 status := RideStatus.accepted }
      else r) }

/-- POST `/rides/:id/assign` run sequentially (each query above executed in
order with no interleaving). Returns the handler outcome and the database
state at exit; error exits occur before the update, so they leave the
state untouched. -/
def assign (db : DB) (rideId driverId : Nat) : Except AppErr Unit × DB :=
  if rideIsPendingCheck db rideId then
    match availableDriverRow db driverId with
    | none => (Except.error ⟨"Driver not found or not available", 404⟩, db)
    | some (_, vehicleId) =>
      (Except.ok (), assignWrite db rideId driverId vehicleId)
  else
    (Except.error ⟨"Ride not found or not available for assignment", 404⟩, db)

/-- Body of PATCH `/rides/:id` accepted by `updateRideSchema`, restricted to
the columns carried by the row model: the optional `status` field (the
schema's valid values are exactly the `RideStatus` constructors; the
optional `fare`/`distance`/`durationMinutes` measurements touch columns the
row model does not carry). -/
structure RideUpdate where
  status : Option RideStatus
deriving DecidableEq

/-- PATCH `/rides/:id` (rides.js router.patch('/:id')), reachable for roles
`driver` and `admin` (`requireRole(['driver', 'admin'])`). Permission
query: `SELECT * FROM rides WHERE id = $1`, with `AND driver_id = $2`
appended only when the caller has role `driver` **and** a profile row
exists. Empty result throws 404; otherwise the update sets the supplied
fields on the row `WHERE id = $1`. -/
def patchRide (u : UserCtx) (db : DB) (rideId : Nat) (upd : RideUpdate) :
    Except AppErr Unit × DB :=
  if u.role = Role.patient then
    (Except.error ⟨"Insufficient permissions", 403⟩, db)
  else
    let permFilter : Ride → Bool :=
      match u.role, driverProfile db u.id with
      | Role.driver, some d => fun r => decide (r.driver_id = some d.id)
      | _, _ => fun _ => true
    let rows := db.rides.filter (fun r => decide (r.id = rideId) && permFilter r)
    match rows with
    | [] => (Except.error ⟨"Ride not found or no permission", 404⟩, db)
    | _ :: _ =>
      let applyUpd : Ride → Ride := fun r =>
        match upd.status with
        | some s => { r with status := s }
        | none => r
      (Except.ok (),
        { db with rides := db.rides.map (fun r => if r.id = rideId then applyUpd r else r) })

/-- The spec's ride/assignment invariant (§3): a ride with `driver_id` or
`vehicle_id` set must not be `pending`. -/
def RideInv (r : Ride) : Prop :=
  (r.driver_id ≠ none ∨ r.vehicle_id ≠ none) → r.status ≠ RideStatus.pending

instance (r : Ride) : Decidable (RideInv r) := by
  unfold RideInv
  infer_instance

/-! ### Interleaving model of two concurrent assignment requests

Each `await query(...)` in the assign handler is an atomic database action;
the Node.js event loop may interleave two in-flight requests at those await
points. A request is modelled as a thread whose phases are: run the two
read checks (`rideIsPendingCheck` / `availableDriverRow`, which do not
write), then — only if both passed — perform the unconditional update.
Collapsing the two reads into one atomic phase only *removes* interleavings,
so any behaviour exhibited here is also a behaviour of the finer model. -/

/-- Progress of one in-flight assignment request. `checked true veh` records
that both precondition queries passed and the joined vehicle id was read;
`finished ok` is the HTTP response (`ok = true` is the 200 success body,
`ok = false` the 404 error). -/
inductive APhase
  | ready
  | checked (ok : Bool) (veh : Option Nat)
  | finished (ok : Bool)
deriving DecidableEq

/-- One atomic step of an assignment request for `(rideId, driverId)`
against the current database. -/
def stepAssign (rideId driverId : Nat) (db : DB) : APhase → APhase × DB
  | APhase.ready =>
    if rideIsPendingCheck db rideId then
      match availableDriverRow db driverId with
      | some (_, veh) => (APhase.checked true veh, db)
      | none => (APhase.checked false none, db)
    else (APhase.checked false none, db)
  | APhase.checked true veh =>
    (APhase.finished true, assignWrite db rideId driverId veh)
  | APhase.checked false _ => (APhase.finished false, db)
  | APhase.finished ok => (APhase.finished ok, db)

/-- Joint state of two in-flight assignment requests A and B. -/
structure TwoAssign where
  pa : APhase
  pb : APhase
  db : DB
deriving DecidableEq

/-- Run one step of request A (`true`) or request B (`false`). -/
def stepTwo (ra rb : Nat × Nat) (s : TwoAssign) (which : Bool) : TwoAssign :=
  if which then
    let (pa', db') := stepAssign ra.1 ra.2 s.db s.pa
    { s with pa := pa', db := db' }
  else
    let (pb', db') := stepAssign rb.1 rb.2 s.db s.pb
    { s with pb := pb', db := db' }

/-- Run the two requests under a given interleaving schedule. -/
def runTwo (ra rb : Nat × Nat) : List Bool → TwoAssign → TwoAssign
  | [], s => s
  | w :: ws, s => runTwo ra rb ws (stepTwo ra rb s w)

/-! ### Payments (src/routes/payments.js) -/

/-- Kind of a verified Stripe webhook event (the `switch (event.type)`). -/
inductive StripeEventKind
  | paymentIntentSucceeded
  | paymentIntentFailed
  | other
deriving DecidableEq

/-- A provider webhook event after signature verification: its type and the
payment-intent id of `event.data.object`. -/
structure StripeEvent where
  kind : StripeEventKind
  paymentIntentId : String
deriving DecidableEq

/-- POST `/payments/confirm/:paymentIntentId`. The Stripe retrieval and the
metadata/user check are external; `stripeSucceeded` models
`paymentIntent.status === 'succeeded'`. The handler then runs
`UPDATE payments SET status = (succeeded ? 'completed' : 'failed')
WHERE stripe_payment_intent_id = $2 AND user_id = $3 RETURNING *`
(404 when no row matched), and — only when succeeded — runs
`UPDATE rides SET status = 'completed' WHERE id = payment.ride_id`
unconditionally on the ride's current status. -/
def confirmPayment (db : DB) (paymentIntentId : String) (userId : Nat)
    (stripeSucceeded : Bool) : Except AppErr Payment × DB :=
  let newStatus := if stripeSucceeded then PayStatus.completed else PayStatus.failed
  let hit : Payment → Bool := fun p =>
    decide (p.stripe_payment_intent_id = paymentIntentId ∧ p.user_id = userId)
  let updated := db.payments.map (fun p => if hit p then { p with status := newStatus } else p)
  let db1 := { db with payments := updated }
  match updated.find? hit with
  | none => (Except.error ⟨"Payment record not found", 404⟩, db1)
  | some payment =>
    if stripeSucceeded then
      (Except.ok payment,
        { db1 with rides := db1.rides.map (fun r =>
            if r.id = payment.ride_id then { r with status := RideStatus.completed } else r) })
    else
      (Except.ok payment, db1)

/-- POST `/payments/webhook`, after signature verification. On
`payment_intent.succeeded` it runs
`UPDATE payments SET status = 'completed' WHERE stripe_payment_intent_id = $1`;
on `payment_intent.payment_failed` the same update with `'failed'`;
any other event type is logged and ignored. No statement in this handler
touches the `rides` table. -/
def handleWebhook (db : DB) (ev : StripeEvent) : DB :=
  match ev.kind with
  | StripeEventKind.paymentIntentSucceeded =>
    { db with payments := db.payments.map (fun p =>
        if p.stripe_payment_intent_id = ev.paymentIntentId
        then { p with status := PayStatus.completed } else p) }
  | StripeEventKind.paymentIntentFailed =>
    { db with payments := db.payments.map (fun p =>
        if p.stripe_payment_intent_id = ev.paymentIntentId
        then { p with status := PayStatus.failed } else p) }
  | StripeEventKind.other => db

/-! ### Registration (src/routes/auth.js) -/

/-- A validated registration request body (fields the modelled handler
reads; `licenseNumber` is required by the schema exactly when
`role = driver` and is ignored otherwise). -/
structure RegInput where
  email : String
  role : Role
  licenseNumber : String
deriving DecidableEq

/-- POST `/auth/register`. After validation the handler checks
`SELECT id FROM users WHERE email = $1` and throws 409 on a hit; otherwise
it runs `BEGIN`; `INSERT INTO users ...`; for role `driver` additionally
`INSERT INTO drivers (user_id, license_number, vehicle_type) ...`
(`availability` takes its schema default `TRUE`); then `COMMIT` — any
failure inside runs `ROLLBACK` and rethrows as a 500. Per the spec the
store is a generic relational store, so `BEGIN`/`COMMIT`/`ROLLBACK`
delimit a real transaction: the unit either commits whole or leaves the
state untouched. The only constraint the driver insert can violate inside
this repository's schema is `drivers.license_number UNIQUE`, which is what
models the in-transaction failure. `newUserId`/`newDriverId` model the
generated UUID / SERIAL key. -/
def register (db : DB) (inp : RegInput) (newUserId newDriverId : Nat) :
    Except AppErr Unit × DB :=
  if db.users.any (fun u => decide (u.email = inp.email)) then
    (Except.error ⟨"User with this email already exists", 409⟩, db)
  else
    let afterUser := { db with users := db.users ++ [⟨newUserId, inp.email, inp.role⟩] }
    if inp.role = Role.driver then
      if db.drivers.any (fun d => decide (d.license_number = inp.licenseNumber)) then
        (Except.error ⟨"Registration failed", 500⟩, db)
      else
        (Except.ok (),
          { afterUser with drivers :=
              afterUser.drivers ++ [⟨newDriverId, newUserId, true, inp.licenseNumber⟩] })
    else
      (Except.ok (), afterUser)

/-! ### Tracking retrieval (src/routes/rides.js GET /rides/:id/tracking) -/

/-- Newest-first order on tracking samples (`ORDER BY timestamp DESC`). -/
def newerFirst (a b : TrackSample) : Prop :=
  b.timestamp ≤ a.timestamp

instance : DecidableRel newerFirst := fun a b =>
  inferInstanceAs (Decidable (b.timestamp ≤ a.timestamp))

instance : IsTotal TrackSample newerFirst :=
  ⟨fun a b => Nat.le_total b.timestamp a.timestamp⟩

instance : IsTrans TrackSample newerFirst :=
  ⟨fun _ _ _ hab hbc => Nat.le_trans hbc hab⟩

/-- The tracking query of GET `/rides/:id/tracking`:
`SELECT * FROM ride_tracking WHERE ride_id = $1 ORDER BY timestamp DESC
LIMIT 50`. Modelled as filter, stable sort newest-first, truncate to 50. -/
def getTracking (db : DB) (rideId : Nat) : List TrackSample :=
  (((db.ride_tracking.filter (fun t => decide (t.ride_id = rideId))).insertionSort
      newerFirst).take 50)

/-! ### Fare computation at ride creation (src/routes/rides.js)

The handler computes `estimatedFare` before the insert and stores it in the
`fare` column. JavaScript numbers are idealised as real numbers. -/

/-- `Math.atan2 y x` on finite real arguments. In `calculateDistance` it is
only ever applied to non-negative arguments that are not both zero. -/
noncomputable def atan2 (y x : ℝ) : ℝ :=
  if 0 < x then Real.arctan (y / x)
  else if x = 0 then
    (if 0 < y then Real.pi / 2 else if y < 0 then -(Real.pi / 2) else 0)
  else
    (if 0 ≤ y then Real.arctan (y / x) + Real.pi else Real.arctan (y / x) - Real.pi)

/-- `calculateDistance(lat1, lon1, lat2, lon2)`: the haversine great-circle
distance with Earth radius 3959 miles, exactly as written in the source. -/
noncomputable def calculateDistance (lat1 lon1 lat2 lon2 : ℝ) : ℝ :=
  let R : ℝ := 3959
  let dLat := (lat2 - lat1) * Real.pi / 180
  let dLon := (lon2 - lon1) * Real.pi / 180
  let a :=
    Real.sin (dLat / 2) * Real.sin (dLat / 2) +
      Real.cos (lat1 * Real.pi / 180) * Real.cos (lat2 * Real.pi / 180) *
        (Real.sin (dLon / 2) * Real.sin (dLon / 2))
  let c := 2 * atan2 (Real.sqrt a) (Real.sqrt (1 - a))
  R * c

open Classical in
/-- The fare computed by POST `/rides`: `let estimatedFare = 15.0` (base
fare), then `if (startLatitude && startLongitude && endLatitude &&
endLongitude)` — JavaScript truthiness: the branch is taken only when every
coordinate is present **and** nonzero — add `calculateDistance(...) * 2.5`.
`none` models an absent (`undefined`) request field. -/
noncomputable def estimatedFare
    (startLatitude startLongitude endLatitude endLongitude : Option ℝ) : ℝ :=
  match startLatitude, startLongitude, endLatitude, endLongitude with
  | some a, some b, some c, some d =>
    if a ≠ 0 ∧ b ≠ 0 ∧ c ≠ 0 ∧ d ≠ 0 then
      15.0 + calculateDistance a b c d * 2.5
    else 15.0
  | _, _, _, _ => 15.0

/-! ### Concrete fixtures used by counterexamples and witnesses -/

/-- An authenticated identity with role `driver` and no `drivers` row. -/
def uNoProfile : UserCtx := ⟨10, Role.driver⟩

/-- A ride requested by patient 1 and assigned to driver 5 — a different
identity than `uNoProfile`. -/
def rideC1 : Ride := ⟨1, 1, some 5, none, RideStatus.accepted⟩

/-- Database for the C1 scenario: one ride belonging to driver 5 (whose
profile is owned by identity 99); identity 10 has no profile. -/
def dbC1 : DB := { DB.empty with
  drivers := [⟨5, 99, true, "LIC-5"⟩],
  rides := [rideC1] }

/-- Database for the C4 scenario: one pending unassigned ride and two
available drivers. -/
def dbC4 : DB := { DB.empty with
  drivers := [⟨1, 11, true, "L1"⟩, ⟨2, 12, true, "L2"⟩],
  rides := [⟨1, 3, none, none, RideStatus.pending⟩] }

/-- Database for the C2 counterexample: a pending payment for ride 1, whose
ride is currently `accepted`. -/
def dbC2 : DB := { DB.empty with
  rides := [⟨1, 7, some 3, some 2, RideStatus.accepted⟩],
  payments := [⟨1, 1, 7, PayStatus.pending, "pi_1"⟩] }

/-- The verified `payment_intent.succeeded` webhook event for `pi_1`. -/
def evC2 : StripeEvent := ⟨StripeEventKind.paymentIntentSucceeded, "pi_1"⟩

/-- An admin request context. -/
def adminCtx : UserCtx := ⟨99, Role.admin⟩

/-- A ride with both `driver_id` and `vehicle_id` set and status
`accepted` — it satisfies the assignment invariant. -/
def rideC6 : Ride := ⟨1, 1, some 1, some 1, RideStatus.accepted⟩

/-- Database for the C6 counterexample: `rideC6` together with its driver
and vehicle rows. -/
def dbC6 : DB := { DB.empty with
  drivers := [⟨1, 2, true, "L1"⟩],
  vehicles := [⟨1, some 1⟩],
  rides := [rideC6] }

/-- Database for the C3 witness: a pending ride 1 and an available driver 2
owning vehicle 4. -/
def dbC3 : DB := { DB.empty with
  drivers := [⟨2, 20, true, "L2"⟩],
  vehicles := [⟨4, some 2⟩],
  rides := [⟨1, 3, none, none, RideStatus.pending⟩] }

/-- Database for the C2 witness: a pending payment `pi_9` of user 7 for
ride 1, whose ride is currently `in-progress`. -/
def dbC2w : DB := { DB.empty with
  rides := [⟨1, 7, some 3, some 2, RideStatus.inProgress⟩],
  payments := [⟨1, 1, 7, PayStatus.pending, "pi_9"⟩] }

/-- Database for the C7 witness: one registered patient and one registered
driver profile. -/
def dbC7 : DB := { DB.empty with
  users := [⟨1, "alice@example.com", Role.patient⟩, ⟨2, "bob@example.com", Role.driver⟩],
  drivers := [⟨1, 2, true, "LIC-B"⟩] }

/-! ## Theorems settling the claims -/

/-- C1: the specification claims that an identity with role `driver` and no
driver profile sees the empty set when listing rides and NotFound when
fetching one ride, never an unscoped result and never another driver's
rides. The code violates this: when the profile lookup returns no row the
handlers append no scoping clause at all, so `uNoProfile` (role `driver`,
no profile) lists driver 5's ride and fetches it successfully. This
contradicts the explicit contract "never fall back to unscoped access". -/
theorem driver_without_profile_sees_unscoped_rides :
    listRides uNoProfile dbC1 none 20 0 = [rideC1] ∧
    getRide uNoProfile dbC1 1 = Except.ok rideC1 :=
  ⟨rfl, rfl⟩

/-- C4: the specification claims the pending → accepted assignment
transition is a conditional update (compare-and-swap), so two concurrent
assignment requests on the same pending ride yield exactly one success.
The code's `UPDATE rides ... WHERE id = $3` does not re-check the status,
so under the interleaving check(A); check(B); write(A); write(B) — with
request A assigning driver 1 and request B assigning driver 2 to the same
pending ride 1 — both requests respond success and the second write
silently overwrites the first: a double assignment. -/
theorem concurrent_assign_double_success :
    (runTwo (1, 1) (1, 2) [true, false, true, false]
        ⟨APhase.ready, APhase.ready, dbC4⟩).pa = APhase.finished true ∧
    (runTwo (1, 1) (1, 2) [true, false, true, false]
        ⟨APhase.ready, APhase.ready, dbC4⟩).pb = APhase.finished true ∧
    (runTwo (1, 1) (1, 2) [true, false, true, false]
        ⟨APhase.ready, APhase.ready, dbC4⟩).db.rides =
      [⟨1, 3, some 2, none, RideStatus.accepted⟩] :=
  ⟨rfl, rfl, rfl⟩

/-- C2 counterexample: the claim says a payment transitioning to
`completed` **via the provider webhook** forces the linked ride's status to
`completed`. On `dbC2` the verified `payment_intent.succeeded` event for
`pi_1` completes the payment, yet the linked ride 1 stays `accepted`: the
webhook handler never touches the `rides` table. -/
theorem webhook_success_leaves_ride_status_cex :
    (handleWebhook dbC2 evC2).payments = [⟨1, 1, 7, PayStatus.completed, "pi_1"⟩] ∧
    (handleWebhook dbC2 evC2).rides = [⟨1, 7, some 3, some 2, RideStatus.accepted⟩] :=
  ⟨rfl, rfl⟩

/-- C6 counterexample: the claim says every operation preserves the
invariant "driver_id or vehicle_id set → status ≠ pending". Starting from
`dbC6`, whose single ride `rideC6` satisfies the invariant, an admin PATCH
of `status = 'pending'` succeeds (the update schema lists `pending` among
the valid statuses and the handler applies it unconditionally) and leaves
a ride with `driver_id` and `vehicle_id` set and status `pending`. -/
theorem patch_pending_breaks_assignment_invariant_cex :
    RideInv rideC6 ∧
    (patchRide adminCtx dbC6 1 ⟨some RideStatus.pending⟩).1 = Except.ok () ∧
    (patchRide adminCtx dbC6 1 ⟨some RideStatus.pending⟩).2.rides =
      [⟨1, 1, some 1, some 1, RideStatus.pending⟩] ∧
    ¬ RideInv ⟨1, 1, some 1, some 1, RideStatus.pending⟩ :=
  ⟨by decide, rfl, rfl, by decide⟩

/-- C8: replaying the same verified provider webhook event twice yields the
same final database state (payments and rides) as processing it once: both
branches of the event switch set the matched payments' status to a constant
value, which is idempotent, and neither touches any other table. -/
theorem webhook_idempotent (db : DB) (ev : StripeEvent) :
    handleWebhook (handleWebhook db ev) ev = handleWebhook db ev := by
  obtain ⟨kind, pid⟩ := ev
  cases kind
  case other => rfl
  all_goals
    simp only [handleWebhook, List.map_map]
    congr 1
    apply List.map_congr_left
    intro p _
    by_cases h : p.stripe_payment_intent_id = pid <;> simp [Function.comp, h]

/-- C9: for every database and ride, tracking retrieval returns at most 50
samples ordered newest first (timestamps non-increasing), even when more
than 50 samples are recorded: the query sorts by timestamp descending and
truncates to 50 rows. -/
theorem tracking_recent_fifty (db : DB) (rideId : Nat) :
    (getTracking db rideId).length ≤ 50 ∧
    List.Sorted newerFirst (getTracking db rideId) := by
  constructor
  · exact List.length_take_le 50 _
  · exact List.Pairwise.sublist (List.take_sublist 50 _)
      (List.sorted_insertionSort newerFirst _)

/-- C10: when all four endpoint coordinates are supplied but at least one
of them equals 0 (a valid latitude/longitude), the JavaScript truthiness
check `if (startLatitude && startLongitude && endLatitude && endLongitude)`
fails, so the stored fare is exactly the base fare 15.0 with no distance
component. -/
theorem fare_zero_coordinate_base_only (a b c d : ℝ)
    (h : a = 0 ∨ b = 0 ∨ c = 0 ∨ d = 0) :
    estimatedFare (some a) (some b) (some c) (some d) = 15 := by
  show (if a ≠ 0 ∧ b ≠ 0 ∧ c ≠ 0 ∧ d ≠ 0 then
      15.0 + calculateDistance a b c d * 2.5 else 15.0) = 15
  rw [if_neg]
  · norm_num
  · rintro ⟨ha, hb, hc, hd⟩
    rcases h with h | h | h | h
    · exact ha h
    · exact hb h
    · exact hc h
    · exact hd h

/-- C10 witness: the ride-creation request with start (0, -75) and end
(41, -75) supplies all four coordinates, one of them zero, and is charged
exactly the base fare. -/
theorem fare_zero_coordinate_base_only_witness :
    estimatedFare (some 0) (some (-75)) (some 41) (some (-75)) = 15 :=
  fare_zero_coordinate_base_only 0 (-75) 41 (-75) (Or.inl rfl)

/-- The pending check of the assign handler succeeds exactly when the ride
with the given id (unique by the SERIAL primary key) is pending. -/
theorem rideIsPendingCheck_iff (db : DB) (r : Ride) (rideId : Nat)
    (hmem : r ∈ db.rides) (hid : r.id = rideId)
    (hnodup : (db.rides.map Ride.id).Nodup) :
    rideIsPendingCheck db rideId = true ↔ r.status = RideStatus.pending := by
  unfold rideIsPendingCheck
  rw [List.any_eq_true]
  constructor
  · rintro ⟨x, hx, hpx⟩
    rw [decide_eq_true_eq] at hpx
    obtain ⟨hxid, hxst⟩ := hpx
    have hxr : x = r := List.inj_on_of_nodup_map hnodup hx hmem (by rw [hxid, hid])
    rwa [hxr] at hxst
  · intro hr
    exact ⟨r, hmem, by rw [decide_eq_true_eq]; exact ⟨hid, hr⟩⟩

/-- The driver check of the assign handler finds a row exactly when an
available driver with the given id exists. -/
theorem availableDriverRow_isSome_iff (db : DB) (driverId : Nat) :
    (availableDriverRow db driverId).isSome = true ↔
      ∃ d ∈ db.drivers, d.id = driverId ∧ d.availability = true := by
  unfold availableDriverRow
  rw [Option.isSome_map', List.find?_isSome]
  constructor
  · rintro ⟨d, hd, hpd⟩
    rw [decide_eq_true_eq] at hpd
    exact ⟨d, hd, hpd⟩
  · rintro ⟨d, hd, hpd⟩
    exact ⟨d, hd, by rw [decide_eq_true_eq]; exact hpd⟩

/-- When the driver check finds a row, that row pairs a driver whose id is
the requested one with the id of its first vehicle. -/
theorem availableDriverRow_some (db : DB) (driverId : Nat)
    (d : DriverRec) (veh : Option Nat)
    (h : availableDriverRow db driverId = some (d, veh)) :
    d ∈ db.drivers ∧ d.id = driverId ∧ d.availability = true ∧
      veh = (db.vehicles.find? (fun v => decide (v.driver_id = some driverId))).map
        VehicleRec.id := by
  unfold availableDriverRow at h
  cases hfd : db.drivers.find?
      (fun e => decide (e.id = driverId ∧ e.availability = true)) with
  | none => rw [hfd] at h; exact absurd h (by simp)
  | some d0 =>
    rw [hfd] at h
    simp only [Option.map_some', Option.some.injEq, Prod.mk.injEq] at h
    obtain ⟨hd0, hveh⟩ := h
    have hpd0 : d0.id = driverId ∧ d0.availability = true := by
      have := List.find?_some hfd
      rwa [decide_eq_true_eq] at this
    subst hd0
    refine ⟨List.mem_of_find?_eq_some hfd, hpd0.1, hpd0.2, ?_⟩
    rw [← hveh, hpd0.1]

/-- C3: given a ride `r` with the requested id, the assign operation
succeeds iff `r` is pending and an available driver with the requested id
exists; on success the resulting state is exactly the source's update
(target ride gets `driver_id = driverId`, `vehicle_id` = the driver's
first vehicle or NULL, `status = 'accepted'`; nothing else changes), and
the updated row is present in the result; on failure the state is
untouched and the error is NotFound-class (status 404). -/
theorem assign_driver_spec (db : DB) (r : Ride) (rideId driverId : Nat)
    (hmem : r ∈ db.rides) (hid : r.id = rideId)
    (hnodup : (db.rides.map Ride.id).Nodup) :
    ((assign db rideId driverId).1.isOk = true ↔
      r.status = RideStatus.pending ∧
        ∃ d ∈ db.drivers, d.id = driverId ∧ d.availability = true) ∧
    ((assign db rideId driverId).1.isOk = true →
      (assign db rideId driverId).2 =
        assignWrite db rideId driverId
          ((db.vehicles.find? (fun v => decide (v.driver_id = some driverId))).map
            VehicleRec.id) ∧
      { r with driver_id := some driverId,
               vehicle_id := (db.vehicles.find?
                 (fun v => decide (v.driver_id = some driverId))).map VehicleRec.id,
               status := RideStatus.accepted } ∈ (assign db rideId driverId).2.rides) ∧
    ((assign db rideId driverId).1.isOk = false →
      (assign db rideId driverId).2 = db ∧
      ∃ e, (assign db rideId driverId).1 = Except.error e ∧ e.status = 404) := by
  by_cases hp : rideIsPendingCheck db rideId = true
  · cases hfind : availableDriverRow db driverId with
    | some dv =>
      obtain ⟨d, veh⟩ := dv
      obtain ⟨hdmem, hdid, hdav, hveh⟩ := availableDriverRow_some db driverId d veh hfind
      have hres : assign db rideId driverId =
          (Except.ok (), assignWrite db rideId driverId veh) := by
        unfold assign
        rw [if_pos hp, hfind]
      refine ⟨?_, ?_, ?_⟩
      · rw [hres]
        simp only [Except.isOk, Except.toBool, true_iff]
        exact ⟨(rideIsPendingCheck_iff db r rideId hmem hid hnodup).mp hp,
          d, hdmem, hdid, hdav⟩
      · intro _
        subst hveh
        constructor
        · rw [hres]
        · have h2 : (assign db rideId driverId).2.rides =
              (assignWrite db rideId driverId
                ((db.vehicles.find? (fun v => decide (v.driver_id = some driverId))).map
                  VehicleRec.id)).rides := by rw [hres]
          rw [h2]
          unfold assignWrite
          apply List.mem_map.mpr
          refine ⟨r, hmem, ?_⟩
          show (if r.id = rideId then
              ({ r with driver_id := some driverId,
                        vehicle_id := (db.vehicles.find?
                          (fun v => decide (v.driver_id = some driverId))).map
                            VehicleRec.id,
                        status := RideStatus.accepted } : Ride)
            else r) = _
          rw [if_pos hid]
      · intro hfalse
        rw [hres] at hfalse
        simp [Except.isOk, Except.toBool] at hfalse
    | none =>
      have hres : assign db rideId driverId =
          (Except.error ⟨"Driver not found or not available", 404⟩, db) := by
        unfold assign
        rw [if_pos hp, hfind]
      refine ⟨?_, ?_, ?_⟩
      · rw [hres]
        simp only [Except.isOk, Except.toBool, Bool.false_eq_true, false_iff]
        rintro ⟨-, d, hd, hdid, hdav⟩
        have : (availableDriverRow db driverId).isSome = true :=
          (availableDriverRow_isSome_iff db driverId).mpr ⟨d, hd, hdid, hdav⟩
        rw [hfind] at this
        exact absurd this (by simp)
      · intro htrue
        rw [hres] at htrue
        simp [Except.isOk, Except.toBool] at htrue
      · intro _
        rw [hres]
        exact ⟨rfl, ⟨"Driver not found or not available", 404⟩, rfl, rfl⟩
  · have hres : assign db rideId driverId =
        (Except.error ⟨"Ride not found or not available for assignment", 404⟩, db) := by
      unfold assign
      rw [if_neg hp]
    refine ⟨?_, ?_, ?_⟩
    · rw [hres]
      simp only [Except.isOk, Except.toBool, Bool.false_eq_true, false_iff]
      rintro ⟨hpend, -⟩
      exact hp ((rideIsPendingCheck_iff db r rideId hmem hid hnodup).mpr hpend)
    · intro htrue
      rw [hres] at htrue
      simp [Except.isOk, Except.toBool] at htrue
    · intro _
      rw [hres]
      exact ⟨rfl, ⟨"Ride not found or not available for assignment", 404⟩, rfl, rfl⟩

/-- C3 witness: on `dbC3`, assigning driver 2 to pending ride 1 succeeds
and yields the updated row assigned to driver 2 with vehicle 4. -/
theorem assign_driver_spec_witness :
    (assign dbC3 1 2).1.isOk = true ∧
    ({ id := 1, user_id := 3, driver_id := some 2, vehicle_id := some 4,
       status := RideStatus.accepted } : Ride) ∈ (assign dbC3 1 2).2.rides := by
  have h := assign_driver_spec dbC3 ⟨1, 3, none, none, RideStatus.pending⟩ 1 2
    (by decide) rfl (by decide)
  have hok : (assign dbC3 1 2).1.isOk = true :=
    h.1.mpr ⟨rfl, ⟨2, 20, true, "L2"⟩, by decide, rfl, rfl⟩
  exact ⟨hok, (h.2.1 hok).2⟩

/-- C2 amended: when a payment transitions to `completed` via the direct
confirmation endpoint, the linked ride's status is forced to `completed`
regardless of its prior status (every ride row with the payment's ride id
is overwritten unconditionally); the provider webhook, by contrast, updates
only the payment and leaves every ride's status unchanged. -/
theorem payment_completion_confirm_only (db : DB) (paymentIntentId : String)
    (userId : Nat) (p : Payment) :
    ((confirmPayment db paymentIntentId userId true).1 = Except.ok p →
      (confirmPayment db paymentIntentId userId true).2.rides =
        db.rides.map (fun r =>
          if r.id = p.ride_id then { r with status := RideStatus.completed } else r)) ∧
    (∀ i : String,
      (handleWebhook db ⟨StripeEventKind.paymentIntentSucceeded, i⟩).rides = db.rides) := by
  constructor
  · intro hok
    simp only [confirmPayment, if_true] at hok ⊢
    cases hfind : (db.payments.map (fun q =>
        if decide (q.stripe_payment_intent_id = paymentIntentId ∧ q.user_id = userId) = true
        then { q with status := PayStatus.completed } else q)).find?
        (fun q => decide (q.stripe_payment_intent_id = paymentIntentId ∧
          q.user_id = userId)) with
    | none =>
      simp only [hfind] at hok
      exact Except.noConfusion hok
    | some q =>
      simp only [hfind, Except.ok.injEq] at hok ⊢
      subst hok
      rfl
  · intro i
    rfl

/-- C2 witness: confirming the succeeded intent `pi_9` of user 7 forces
ride 1 of `dbC2w` (previously `in-progress`) to `completed`, while the
webhook for the same intent leaves the rides of `dbC2w` untouched. -/
theorem payment_completion_confirm_only_witness :
    (confirmPayment dbC2w "pi_9" 7 true).2.rides =
      dbC2w.rides.map (fun r =>
        if r.id = (⟨1, 1, 7, PayStatus.completed, "pi_9"⟩ : Payment).ride_id
        then { r with status := RideStatus.completed } else r) ∧
    (handleWebhook dbC2w ⟨StripeEventKind.paymentIntentSucceeded, "pi_9"⟩).rides =
      dbC2w.rides :=
  ⟨(payment_completion_confirm_only dbC2w "pi_9" 7
      ⟨1, 1, 7, PayStatus.completed, "pi_9"⟩).1 rfl,
   (payment_completion_confirm_only dbC2w "pi_9" 7
      ⟨1, 1, 7, PayStatus.completed, "pi_9"⟩).2 "pi_9"⟩

/-- C6 amended: ride creation and driver assignment preserve the invariant
"driver_id or vehicle_id set → status ≠ pending": creation inserts a row
with both ids NULL and status `pending`, and assignment only ever writes
`status = 'accepted'` together with the driver id. (The generic status
update does not preserve it — see the counterexample.) -/
theorem create_assign_preserve_assignment_invariant (db : DB)
    (hinv : ∀ r ∈ db.rides, RideInv r) :
    (∀ userId newId r, r ∈ (createRide db userId newId).rides → RideInv r) ∧
    (∀ rideId driverId r, r ∈ ((assign db rideId driverId).2).rides → RideInv r) := by
  constructor
  · intro userId newId r hr
    unfold createRide at hr
    simp only [List.mem_append, List.mem_singleton] at hr
    rcases hr with hr | hr
    · exact hinv r hr
    · subst hr
      intro h
      rcases h with h | h <;> exact absurd rfl h
  · intro rideId driverId r hr
    unfold assign at hr
    by_cases hp : rideIsPendingCheck db rideId = true
    · rw [if_pos hp] at hr
      cases hfind : availableDriverRow db driverId with
      | none =>
        simp only [hfind] at hr
        exact hinv r hr
      | some dv =>
        obtain ⟨d, veh⟩ := dv
        simp only [hfind] at hr
        unfold assignWrite at hr
        simp only [List.mem_map] at hr
        obtain ⟨s, hs, hfs⟩ := hr
        by_cases hsid : s.id = rideId
        · rw [if_pos hsid] at hfs
          subst hfs
          intro _ hcontra
          exact RideStatus.noConfusion hcontra
        · rw [if_neg hsid] at hfs
          subst hfs
          exact hinv s hs
    · rw [if_neg hp] at hr
      exact hinv r hr

/-- C6 amended witness: starting from `dbC3` (whose only ride satisfies the
invariant), both the row inserted by ride creation and the rows left by a
successful assignment satisfy the invariant. -/
theorem create_assign_preserve_assignment_invariant_witness :
    RideInv ⟨9, 3, none, none, RideStatus.pending⟩ ∧
    RideInv ⟨1, 3, some 2, some 4, RideStatus.accepted⟩ := by
  have h := create_assign_preserve_assignment_invariant dbC3 (by decide)
  exact ⟨h.1 3 9 _ (by decide), h.2 1 2 _ (by decide)⟩

/-- C7: registering with an email that already belongs to an existing
identity fails with a Conflict-class 409; every registration failure —
including the in-transaction failure of the driver-profile insert after
the identity insert — leaves the database exactly as it was (no new
identity row, no new driver-profile row); and a success commits the
identity row together with the driver-profile row exactly when the role
is `driver`. -/
theorem register_atomic_spec (db : DB) (inp : RegInput)
    (newUserId newDriverId : Nat) :
    ((∃ u ∈ db.users, u.email = inp.email) →
      (register db inp newUserId newDriverId).1 =
        Except.error ⟨"User with this email already exists", 409⟩ ∧
      (register db inp newUserId newDriverId).2 = db) ∧
    (∀ e, (register db inp newUserId newDriverId).1 = Except.error e →
      (register db inp newUserId newDriverId).2 = db) ∧
    ((register db inp newUserId newDriverId).1 = Except.ok () →
      (register db inp newUserId newDriverId).2.users =
        db.users ++ [⟨newUserId, inp.email, inp.role⟩] ∧
      (inp.role = Role.driver →
        (register db inp newUserId newDriverId).2.drivers =
          db.drivers ++ [⟨newDriverId, newUserId, true, inp.licenseNumber⟩]) ∧
      (inp.role ≠ Role.driver →
        (register db inp newUserId newDriverId).2.drivers = db.drivers)) := by
  by_cases hdup : db.users.any (fun v => decide (v.email = inp.email)) = true
  · refine ⟨fun _ => ?_, fun e _ => ?_, fun hok => ?_⟩
    · constructor <;> simp [register, hdup]
    · simp [register, hdup]
    · simp [register, hdup] at hok
  · have hnodup : ¬ ∃ u ∈ db.users, u.email = inp.email := by
      rintro ⟨u, hu, he⟩
      exact hdup (List.any_eq_true.mpr ⟨u, hu, by rw [decide_eq_true_eq]; exact he⟩)
    by_cases hrole : inp.role = Role.driver
    · by_cases hlic :
          db.drivers.any (fun d => decide (d.license_number = inp.licenseNumber)) = true
      · refine ⟨fun hc => absurd hc hnodup, fun e _ => ?_, fun hok => ?_⟩
        · simp [register, hdup, hrole, hlic]
        · simp [register, hdup, hrole, hlic] at hok
      · refine ⟨fun hc => absurd hc hnodup, fun e he => ?_, fun _ => ?_⟩
        · simp [register, hdup, hrole, hlic] at he
        · refine ⟨by simp [register, hdup, hrole, hlic],
            fun _ => by simp [register, hdup, hrole, hlic],
            fun hnd => absurd hrole hnd⟩
    · refine ⟨fun hc => absurd hc hnodup, fun e he => ?_, fun _ => ?_⟩
      · simp [register, hdup, hrole] at he
      · exact ⟨by simp [register, hdup, hrole],
          fun hd => absurd hd hrole,
          fun _ => by simp [register, hdup, hrole]⟩

/-- C7 witness: registering `alice@example.com` again on `dbC7` fails with
the 409 Conflict and leaves the database unchanged; registering a fresh
driver whose license number collides with the existing profile fails and
also leaves the database unchanged. -/
theorem register_atomic_spec_witness :
    ((register dbC7 ⟨"alice@example.com", Role.patient, ""⟩ 3 9).1 =
      Except.error ⟨"User with this email already exists", 409⟩ ∧
     (register dbC7 ⟨"alice@example.com", Role.patient, ""⟩ 3 9).2 = dbC7) ∧
    (register dbC7 ⟨"carol@example.com", Role.driver, "LIC-B"⟩ 3 9).2 = dbC7 :=
  ⟨(register_atomic_spec dbC7 ⟨"alice@example.com", Role.patient, ""⟩ 3 9).1
      ⟨⟨1, "alice@example.com", Role.patient⟩, by decide, rfl⟩,
   (register_atomic_spec dbC7 ⟨"carol@example.com", Role.driver, "LIC-B"⟩ 3 9).2.1
      ⟨"Registration failed", 500⟩ rfl⟩

/-- The haversine distance between (0, -75) and (41, -75) is strictly
positive: 41 degrees of latitude apart is a positive great-circle arc. -/
theorem calculateDistance_zero_neg75_pos :
    0 < calculateDistance 0 (-75) 41 (-75) := by
  have hθ1 : (0 : ℝ) < 41 * Real.pi / 180 / 2 := by nlinarith [Real.pi_pos]
  have hθ2 : 41 * Real.pi / 180 / 2 < Real.pi := by nlinarith [Real.pi_pos]
  have hs : 0 < Real.sin (41 * Real.pi / 180 / 2) :=
    Real.sin_pos_of_pos_of_lt_pi hθ1 hθ2
  have hc : 0 < Real.cos (41 * Real.pi / 180 / 2) :=
    Real.cos_pos_of_mem_Ioo ⟨by nlinarith [Real.pi_pos], by nlinarith [Real.pi_pos]⟩
  have hA : Real.sin ((41 - 0) * Real.pi / 180 / 2) *
        Real.sin ((41 - 0) * Real.pi / 180 / 2) +
      Real.cos (0 * Real.pi / 180) * Real.cos (41 * Real.pi / 180) *
        (Real.sin ((-75 - -75) * Real.pi / 180 / 2) *
          Real.sin ((-75 - -75) * Real.pi / 180 / 2)) =
      Real.sin (41 * Real.pi / 180 / 2) * Real.sin (41 * Real.pi / 180 / 2) := by
    norm_num
  have hAlt : Real.sin (41 * Real.pi / 180 / 2) *
      Real.sin (41 * Real.pi / 180 / 2) < 1 := by
    nlinarith [Real.sin_sq_add_cos_sq (41 * Real.pi / 180 / 2), hc, hs]
  show 0 < (3959 : ℝ) * (2 * atan2
    (Real.sqrt (Real.sin ((41 - 0) * Real.pi / 180 / 2) *
        Real.sin ((41 - 0) * Real.pi / 180 / 2) +
      Real.cos (0 * Real.pi / 180) * Real.cos (41 * Real.pi / 180) *
        (Real.sin ((-75 - -75) * Real.pi / 180 / 2) *
          Real.sin ((-75 - -75) * Real.pi / 180 / 2))))
    (Real.sqrt (1 - (Real.sin ((41 - 0) * Real.pi / 180 / 2) *
        Real.sin ((41 - 0) * Real.pi / 180 / 2) +
      Real.cos (0 * Real.pi / 180) * Real.cos (41 * Real.pi / 180) *
        (Real.sin ((-75 - -75) * Real.pi / 180 / 2) *
          Real.sin ((-75 - -75) * Real.pi / 180 / 2))))))
  rw [hA]
  have hx : 0 < Real.sqrt (1 - Real.sin (41 * Real.pi / 180 / 2) *
      Real.sin (41 * Real.pi / 180 / 2)) :=
    Real.sqrt_pos.mpr (by linarith)
  have hy : 0 < Real.sqrt (Real.sin (41 * Real.pi / 180 / 2) *
      Real.sin (41 * Real.pi / 180 / 2)) :=
    Real.sqrt_pos.mpr (mul_pos hs hs)
  unfold atan2
  rw [if_pos hx]
  have harc : 0 < Real.arctan (Real.sqrt (Real.sin (41 * Real.pi / 180 / 2) *
      Real.sin (41 * Real.pi / 180 / 2)) /
      Real.sqrt (1 - Real.sin (41 * Real.pi / 180 / 2) *
        Real.sin (41 * Real.pi / 180 / 2))) := by
    have h2 := Real.arctan_strictMono (div_pos hy hx)
    rwa [Real.arctan_zero] at h2
  nlinarith [harc]

/-- C5 counterexample: the claim says that whenever all four endpoint
coordinates are present the stored fare is
`15.0 + haversine_miles(start, end) * 2.5`. The request with start
(0, -75) and end (41, -75) supplies all four coordinates, yet the code
stores exactly the base fare 15.0, while the claimed formula yields a
strictly larger value (the haversine distance is positive): latitude 0 is
treated as absent by the JavaScript truthiness check. -/
theorem fare_present_zero_coordinate_cex :
    estimatedFare (some 0) (some (-75)) (some 41) (some (-75)) = 15 ∧
    15 + calculateDistance 0 (-75) 41 (-75) * 2.5 ≠ 15 := by
  constructor
  · show (if (0 : ℝ) ≠ 0 ∧ (-75 : ℝ) ≠ 0 ∧ (41 : ℝ) ≠ 0 ∧ (-75 : ℝ) ≠ 0 then
        15.0 + calculateDistance 0 (-75) 41 (-75) * 2.5 else 15.0) = 15
    rw [if_neg]
    · norm_num
    · rintro ⟨h0, -⟩
      exact h0 rfl
  · have hpos := calculateDistance_zero_neg75_pos
    intro hcontra
    nlinarith [hpos]

/-- C5 amended: the stored fare equals
`15.0 + haversine_miles(start, end) * 2.5` (haversine with Earth radius
3959 miles) when all four endpoint coordinates are present **and nonzero**
(JavaScript truthiness), and equals exactly 15.0 when no coordinates are
given. -/
theorem fare_formula_nonzero_coords (a b c d : ℝ)
    (ha : a ≠ 0) (hb : b ≠ 0) (hc : c ≠ 0) (hd : d ≠ 0) :
    estimatedFare (some a) (some b) (some c) (some d) =
      15 + calculateDistance a b c d * 2.5 ∧
    estimatedFare none none none none = 15 := by
  constructor
  · show (if a ≠ 0 ∧ b ≠ 0 ∧ c ≠ 0 ∧ d ≠ 0 then
        15.0 + calculateDistance a b c d * 2.5 else 15.0) =
      15 + calculateDistance a b c d * 2.5
    rw [if_pos ⟨ha, hb, hc, hd⟩]
    norm_num
  · show (15.0 : ℝ) = 15
    norm_num

/-- C5 witness: the spec's own test vector — start (40, -75), end
(41, -75) — is charged base fare plus the haversine distance at $2.50 per
mile, and a request with no coordinates is charged exactly 15.0. -/
theorem fare_formula_nonzero_coords_witness :
    estimatedFare (some 40) (some (-75)) (some 41) (some (-75)) =
      15 + calculateDistance 40 (-75) 41 (-75) * 2.5 ∧
    estimatedFare none none none none = 15 :=
  fare_formula_nonzero_coords 40 (-75) 41 (-75)
    (by norm_num) (by norm_num) (by norm_num) (by norm_num)

end MediTransport
